import Mathlib

/-!
Verification development for the traffic-selector and analysis-measurement core of
the cabrinha/argo-rollouts repository.

Part 1 embeds src/rollout/service.go: the selector patch applier
(switchServiceSelector), the blue-green preview/active reconcile functions, the
service resolver (getReferencedService), and getPreviewAndActiveServices.

Kubernetes client effects (patch calls, events, status conditions) are embedded as
explicit lists of records returned next to each function result, and the external
lister is a parameter of type String to Except RErr Service.  Go string-keyed maps
become association lists; a Go nil map is Option.none.
-/

/-- The Go constant v1alpha1.DefaultRolloutUniqueLabelKey. -/
def defaultRolloutUniqueLabelKey : String := "rollouts-pod-template-hash"

/-- Lookup in an association list, the embedding of a Go map read (value, ok). -/
def selLookup : List (String × String) → String → Option String
  | [], _ => none
  | (k', v) :: rest, k => if k' = k then some v else selLookup rest k

/-- Map write m[k] = v: replace the binding if the key is present, else add it. -/
def selSet : List (String × String) → String → String → List (String × String)
  | [], k, v => [(k, v)]
  | (k', v') :: rest, k, v => if k' = k then (k, v) :: rest else (k', v') :: selSet rest k v

/-- A corev1.Service restricted to the fields read by service.go: its name and
its label selector (Spec.Selector).  none embeds a nil Go map. -/
structure Service where
  name : String
  selector : Option (List (String × String))
  deriving DecidableEq, Repr

/-- Errors flowing through service.go: the lister's not-found error, any other
lister failure, the Invalid Spec error of getPreviewAndActiveServices, and a
failed kube patch call. -/
inductive RErr
  | notFound (name : String)
  | lookupFailed (msg : String)
  | invalidSpec (msg : String)
  | patchFailed (msg : String)
  deriving DecidableEq, Repr

/-- corev1 event types used by service.go. -/
inductive EventType
  | normal
  | warning
  deriving DecidableEq, Repr

/-- One recorder.Event call: event type, reason, message. -/
structure RecordedEvent where
  etype : EventType
  reason : String
  msg : String
  deriving DecidableEq, Repr

/-- One rollout status condition as built by conditions.NewRolloutCondition:
condition type, status (false embeds corev1.ConditionFalse), reason, message. -/
structure RolloutCondition where
  ctype : String
  status : Bool
  reason : String
  msg : String
  deriving DecidableEq, Repr

/-- Result of switchServiceSelector: the returned error, the (possibly updated)
in-memory service, the kube patch calls issued (service name, new selector
value), and the events recorded. -/
structure SwitchResult where
  err : Option RErr
  service : Service
  patches : List (String × String)
  events : List RecordedEvent
  deriving DecidableEq, Repr

/-- Embedding of RolloutController.switchServiceSelector (service.go lines 29-46).
A nil selector map is replaced by an empty one; if the current value under the
unique-hash key already equals the target the call is a no-op returning nil;
otherwise one patch call is issued (patchErr is the outcome of the external
Patch call), and on success an event is recorded and the in-memory selector is
updated to the new value. -/
def switchServiceSelector (patchErr : Option String) (service : Service) (newRolloutUniqueLabelValue : String) : SwitchResult :=
  let sel := service.selector.getD []
  let svc1 : Service := { service with selector := some sel }
  if selLookup sel defaultRolloutUniqueLabelKey = some newRolloutUniqueLabelValue then
    ⟨none, svc1, [], []⟩
  else
    match patchErr with
    | some e => ⟨some (RErr.patchFailed e), svc1, [(service.name, newRolloutUniqueLabelValue)], []⟩
    | none =>
      let msg := "Switched selector for service " ++ service.name ++ " to value " ++ newRolloutUniqueLabelValue
      ⟨none,
        { svc1 with selector := some (selSet sel defaultRolloutUniqueLabelKey newRolloutUniqueLabelValue) },
        [(service.name, newRolloutUniqueLabelValue)],
        [⟨EventType.normal, "SwitchService", msg⟩]⟩

/-- A replica set restricted to the fields service.go reads: name, the value of
Labels at the unique-hash key, the revision number read by
replicasetutil.GetReplicaSetRevision (an annotation, external util), and
Spec.Replicas (read by the external k8s helper FilterActiveReplicaSets). -/
structure ReplicaSet where
  name : String
  hash : String
  revision : Int
  specReplicas : Int
  deriving DecidableEq, Repr

/-- Embedding of the external k8s helper controller.FilterActiveReplicaSets:
keeps the replica sets whose Spec.Replicas is positive (the spec words: still
active, have live pods). -/
def filterActiveReplicaSets (l : List ReplicaSet) : List ReplicaSet :=
  l.filter (fun rs => 0 < rs.specReplicas)

/-- The per-pass inputs of the blue-green reconcile functions.  The fields
readyForPause, isSaturated, skipPause, completedBlueGreenPause and
completedPrePromotionAnalysis are the boolean outcomes of helpers defined
outside service.go (replicasetutil.ReadyForPause, annotations.IsSaturated,
skipPause, PauseContext.CompletedBlueGreenPause, completedPrePromotionAnalysis);
service.go only branches on them, so they enter the embedding as inputs. -/
structure BGInput where
  abort : Bool
  newRS : ReplicaSet
  olderRSs : List ReplicaSet
  readyForPause : Bool
  isSaturated : Bool
  skipPause : Bool
  completedBlueGreenPause : Bool
  completedPrePromotionAnalysis : Bool
  deriving DecidableEq, Repr

/-- The abort loop of reconcileActiveService (service.go lines 86-93): iterate
over the active older replica sets keeping the hash of the one with the
greatest revision seen so far (strictly greater than the running maximum). -/
def abortFold : List ReplicaSet → String → Int → String
  | [], h, _ => h
  | rs :: rest, h, cur =>
    if cur < rs.revision then abortFold rest rs.hash rs.revision
    else abortFold rest h cur

/-- The target computation of reconcileActiveService (service.go lines 76-94):
start from the active service's current unique-hash selector value (empty string
when absent), overwrite with the new RS hash if skipPause, overwrite again if
the blue-green pause completed and pre-promotion analysis completed, and on
abort run the highest-revision loop over the active older replica sets. -/
def computeActiveTarget (inp : BGInput) (activeSvc : Service) : String :=
  let h0 := (selLookup (activeSvc.selector.getD []) defaultRolloutUniqueLabelKey).getD ""
  let h1 := if inp.skipPause then inp.newRS.hash else h0
  let h2 := if inp.completedBlueGreenPause && inp.completedPrePromotionAnalysis then inp.newRS.hash else h1
  if inp.abort then abortFold (filterActiveReplicaSets inp.olderRSs) h2 0 else h2

/-- Result of reconcileActiveService: returned error, updated active service,
patch calls, events. -/
structure ActiveResult where
  err : Option RErr
  activeSvc : Service
  patches : List (String × String)
  events : List RecordedEvent
  deriving DecidableEq, Repr

/-- Embedding of RolloutController.reconcileActiveService (service.go lines
66-101).  If the new RS is not ready for pause or not saturated the function
logs and returns nil without touching any service; otherwise it computes the
target and calls switchServiceSelector on the active service. -/
def reconcileActiveService (inp : BGInput) (activeSvc : Service) (patchErr : Option String) : ActiveResult :=
  if !inp.readyForPause || !inp.isSaturated then
    ⟨none, activeSvc, [], []⟩
  else
    let sw := switchServiceSelector patchErr activeSvc (computeActiveTarget inp activeSvc)
    ⟨sw.err, sw.service, sw.patches, sw.events⟩

/-- Result of reconcilePreviewService. -/
structure PreviewResult where
  err : Option RErr
  previewSvc : Option Service
  patches : List (String × String)
  events : List RecordedEvent
  deriving DecidableEq, Repr

/-- Embedding of RolloutController.reconcilePreviewService (service.go lines
48-64): nil preview service is a no-op; otherwise unconditionally switch the
preview service selector to the new RS unique hash. -/
def reconcilePreviewService (inp : BGInput) (previewSvc : Option Service) (patchErr : Option String) : PreviewResult :=
  match previewSvc with
  | none => ⟨none, none, [], []⟩
  | some svc =>
    let sw := switchServiceSelector patchErr svc inp.newRS.hash
    ⟨sw.err, some sw.service, sw.patches, sw.events⟩

/-- The reason string of conditions.ServiceNotFoundReason (utils/conditions,
outside src). -/
def serviceNotFoundReason : String := "ServiceNotFound"

/-- Modelled from the spec: the message format conditions.ServiceNotFoundMessage
(utils/conditions is not among the source files); per the spec it references
the missing service name. -/
def serviceNotFoundMessage (name : String) : String :=
  "The Rollout references a Service that does not exist: " ++ name

/-- Result of getReferencedService: returned service, returned error, events
recorded, status conditions set via patchCondition. -/
structure ResolveResult where
  svc : Option Service
  err : Option RErr
  events : List RecordedEvent
  conditions : List RolloutCondition
  deriving DecidableEq, Repr

/-- Embedding of RolloutController.getReferencedService (service.go lines
104-117).  The lister is the parameter lookup.  On a not-found error it records
a warning event and a Progressing=False condition with the ServiceNotFound
reason and returns (nil, err); any other error passes through with no effects. -/
def getReferencedService (lookup : String → Except RErr Service) (serviceName : String) : ResolveResult :=
  match lookup serviceName with
  | Except.ok svc => ⟨some svc, none, [], []⟩
  | Except.error e =>
    match e with
    | RErr.notFound n =>
      let msg := serviceNotFoundMessage serviceName
      ⟨none, some (RErr.notFound n),
        [⟨EventType.warning, serviceNotFoundReason, msg⟩],
        [⟨"Progressing", false, serviceNotFoundReason, msg⟩]⟩
    | _ => ⟨none, some e, [], []⟩

/-- The Invalid Spec error message of getPreviewAndActiveServices. -/
def invalidSpecMessage : String := "Invalid Spec: Rollout missing field ActiveService"

/-- Result of getPreviewAndActiveServices. -/
structure ServicesResult where
  previewSvc : Option Service
  activeSvc : Option Service
  err : Option RErr
  events : List RecordedEvent
  conditions : List RolloutCondition
  deriving DecidableEq, Repr

/-- Embedding of RolloutController.getPreviewAndActiveServices (service.go lines
119-138).  If the preview service name is non-empty it is resolved first and a
resolution error returns immediately; then an empty active service name is an
immediate Invalid Spec error; finally the active service is resolved. -/
def getPreviewAndActiveServices (lookup : String → Except RErr Service) (previewName activeName : String) : ServicesResult :=
  let pre : ResolveResult :=
    if previewName = "" then ⟨none, none, [], []⟩
    else getReferencedService lookup previewName
  match pre.err with
  | some e => ⟨none, none, some e, pre.events, pre.conditions⟩
  | none =>
    if activeName = "" then
      ⟨none, none, some (RErr.invalidSpec invalidSpecMessage), pre.events, pre.conditions⟩
    else
      let act := getReferencedService lookup activeName
      match act.err with
      | some e => ⟨none, none, some e, pre.events ++ act.events, pre.conditions ++ act.conditions⟩
      | none => ⟨pre.svc, act.svc, none, pre.events ++ act.events, pre.conditions ++ act.conditions⟩

/-- Result of one blue-green reconciliation pass. -/
structure PassResult where
  err : Option RErr
  patches : List (String × String)
  events : List RecordedEvent
  conditions : List RolloutCondition
  previewSvc : Option Service
  activeSvc : Option Service
  deriving DecidableEq, Repr

/-- Modelled from the spec: the per-pass blue-green orchestration (the caller of
getPreviewAndActiveServices, reconcilePreviewService and reconcileActiveService)
is not among the source files.  Per the spec a reconciliation pass resolves the
referenced services, ends early for the strategy when resolution fails, and
otherwise reconciles the preview service and then the active service, stopping
on the first error. -/
def reconcileBlueGreenPass (lookup : String → Except RErr Service) (previewName activeName : String) (inp : BGInput) (patchErr : Option String) : PassResult :=
  let sr := getPreviewAndActiveServices lookup previewName activeName
  match sr.err with
  | some e => ⟨some e, [], sr.events, sr.conditions, none, none⟩
  | none =>
    match sr.activeSvc with
    | none => ⟨none, [], sr.events, sr.conditions, sr.previewSvc, none⟩
    | some activeSvc =>
      let pr := reconcilePreviewService inp sr.previewSvc patchErr
      match pr.err with
      | some e => ⟨some e, pr.patches, sr.events ++ pr.events, sr.conditions, pr.previewSvc, some activeSvc⟩
      | none =>
        let ar := reconcileActiveService inp activeSvc patchErr
        ⟨ar.err, pr.patches ++ ar.patches, sr.events ++ pr.events ++ ar.events, sr.conditions, pr.previewSvc, some ar.activeSvc⟩

/-!
Part 2 embeds the datadog metric provider.  The repository holds two versions of
the file:  src/metricproviders/datadog/datadog.go (namespace Datadog below) and
the unnamed source file src/unnamed/part_000 (namespace DatadogV0 below), which
is an earlier revision of the same provider.  Shared value types come first.

A float64 sample is embedded as DDValue: an integer-valued numeric sample or the
not-a-number value (only NaN-ness and identity of samples matter to this code).
Wall-clock times are Nats supplied by a now parameter.  External collaborators
(template resolution, the datadog query transport, the evaluate.EvaluateResult
success and failure evaluator, all outside the source files) are parameters.
The out-of-range slice index dp[0] on an empty slice is embedded by Option:
a none result marks the Go runtime panic.
-/

/-- A float64 sample value: integer-valued numeric sample or NaN. -/
inductive DDValue
  | num (n : Int)
  | nan
  deriving DecidableEq, Repr

/-- math.IsNaN on a sample value. -/
def DDValue.isNaN : DDValue → Bool
  | DDValue.num _ => false
  | DDValue.nan => true

/-- A dd.DataPoint, a pair of a unix timestamp and a value (the Go type is a
pair of float64 pointers; the code reads index 1, the value). -/
structure DataPoint where
  ts : DDValue
  val : DDValue
  deriving DecidableEq, Repr

/-- A dd.Series restricted to the field the provider reads: Points. -/
structure Series where
  points : List DataPoint
  deriving DecidableEq, Repr

/-- The v1alpha1.AnalysisPhase string enum; empty embeds the Go zero value "". -/
inductive AnalysisPhase
  | empty
  | pending
  | running
  | successful
  | failed
  | error
  | inconclusive
  deriving DecidableEq, Repr

/-- A v1alpha1.Measurement restricted to the fields the provider writes. -/
structure Measurement where
  startedAt : Option Nat
  finishedAt : Option Nat
  resumeAt : Option Nat
  phase : AnalysisPhase
  value : String
  message : String
  deriving DecidableEq, Repr

/-- Modelled from the spec: metricutil.MarkMeasurementError (utils/metric is not
among the source files); per the spec a transport or auth error wraps into a
Measurement marked with the error phase carrying the error text, with
FinishedAt set. -/
def markMeasurementError (now : Nat) (m : Measurement) (e : String) : Measurement :=
  { m with phase := AnalysisPhase.error, message := e, finishedAt := some now }

/-- Rendering of one sample under the Go format verb with two decimals, for
integer-valued samples. -/
def fmt2 : DDValue → String
  | DDValue.num n => toString n ++ ".00"
  | DDValue.nan => "NaN"

/-- Rendering of one sample under the Go default float format verb, for
integer-valued samples. -/
def fmtF : DDValue → String
  | DDValue.num n => toString n ++ ".000000"
  | DDValue.nan => "NaN"

/-- A concrete success and failure evaluator used in the closed scenarios below:
successful when every sample is a positive number, failed otherwise.  The real
evaluate.EvaluateResult lives outside the source files, so the provider
functions take the evaluator as a parameter; this is one concrete instance. -/
def evalAllPositive (l : List DDValue) : AnalysisPhase :=
  if l.all (fun v => match v with | DDValue.num n => decide (0 < n) | DDValue.nan => false) then
    AnalysisPhase.successful
  else AnalysisPhase.failed

namespace Datadog

/-- The value string built by the branch of flattenResponse for more than two
points (datadog.go lines 112-122): start from a left bracket, append each value
with a trailing comma, then strip the last comma and close the bracket when
anything was appended, else return the empty string. -/
def buildValueStr (dp : List DataPoint) : String :=
  let s := dp.foldl (fun acc p => acc ++ fmt2 p.val ++ ",") "["
  if 1 < s.length then s.dropRight 1 ++ "]" else ""

/-- Embedding of flattenResponse (datadog.go lines 108-128).  floats is
pre-allocated with make to the length of dp, so it starts as that many zeros;
in the branch for more than two points the values are appended after those
zeros; otherwise the function formats dp[0] and returns the zeros untouched.
The dp[0] read is out of range when dp is empty: that runtime panic is the
none result. -/
def flattenResponse (dp : List DataPoint) : Option (List DDValue × String) :=
  let floats := List.replicate dp.length (DDValue.num 0)
  if 2 < dp.length then
    some (floats ++ dp.map (fun p => p.val), buildValueStr dp)
  else
    match dp.head? with
    | none => none
    | some p0 => some (floats, fmt2 p0.val)

/-- Embedding of Provider.processResponse (datadog.go lines 130-146).  An empty
response is Inconclusive; otherwise the first series is flattened, a NaN among
the flattened results gives Inconclusive, else the evaluator decides.  The
final return of the Go function (Failed with an error) is dead code: the two
guards cover every length.  A none result propagates the flatten panic. -/
def processResponse (evalResult : List DDValue → AnalysisPhase) (response : List Series) : Option (String × AnalysisPhase × Option String) :=
  match response with
  | [] => some ("", AnalysisPhase.inconclusive, none)
  | series :: _ =>
    match flattenResponse series.points with
    | none => none
    | some (results, valueStr) =>
      if results.any DDValue.isNaN then some (valueStr, AnalysisPhase.inconclusive, none)
      else some (valueStr, evalResult results, none)

/-- Embedding of Provider.runMeasurement (datadog.go lines 69-104).  resolve is
the outcome of templateutil.ResolveArgs and query the outcome of
client.QueryMetrics, both external.  After classification: empty value with a
non-successful status becomes Running with ResumeAt two seconds ahead; a
non-empty value with a Successful status becomes terminal with FinishedAt; any
other combination leaves phase, FinishedAt and ResumeAt at their zero values.
The value is stored last in every non-error path. -/
def runMeasurement (evalResult : List DDValue → AnalysisPhase) (now : Nat) (resolve : Except String String) (query : Except String (List Series)) : Option Measurement :=
  let newMeasurement : Measurement :=
    ⟨some now, none, none, AnalysisPhase.empty, "", ""⟩
  match resolve with
  | Except.error e => some (markMeasurementError now newMeasurement e)
  | Except.ok _ =>
    match query with
    | Except.error e => some (markMeasurementError now newMeasurement e)
    | Except.ok response =>
      match processResponse evalResult response with
      | none => none
      | some (newValue, newStatus, perr) =>
        match perr with
        | some e => some (markMeasurementError now newMeasurement e)
        | none =>
          let m1 :=
            if newValue = "" ∧ newStatus ≠ AnalysisPhase.successful then
              { newMeasurement with
                  finishedAt := none,
                  phase := AnalysisPhase.running,
                  resumeAt := some (now + 2) }
            else if newValue ≠ "" ∧ newStatus = AnalysisPhase.successful then
              { newMeasurement with
                  finishedAt := some now,
                  phase := newStatus }
            else newMeasurement
          some { m1 with value := newValue }

/-- Embedding of Provider.Run (datadog.go lines 39-42): one runMeasurement. -/
def Run (evalResult : List DDValue → AnalysisPhase) (now : Nat) (resolve : Except String String) (query : Except String (List Series)) : Option Measurement :=
  runMeasurement evalResult now resolve query

/-- Embedding of Provider.Resume (datadog.go lines 45-56), instrumented with
the number of runMeasurement calls performed.  query gives the response of the
i-th runMeasurement call.  The Go loop runs for retries from 0 while retries is
below 3 and the phase is not Successful, but its body ends in an unconditional
return statement, so at most one loop iteration ever executes: one initial
call, then at most one re-query inside the first iteration. -/
def Resume (evalResult : List DDValue → AnalysisPhase) (now : Nat) (resolve : Except String String) (query : Nat → Except String (List Series)) : Option (Measurement × Nat) :=
  match runMeasurement evalResult now resolve (query 0) with
  | none => none
  | some measurement =>
    if 0 < 3 ∧ measurement.phase ≠ AnalysisPhase.successful then
      match runMeasurement evalResult now resolve (query 1) with
      | none => none
      | some m1 => some (m1, 2)
    else some (measurement, 1)

end Datadog

namespace DatadogV0

/-- Embedding of flattenResponse of the unnamed source file (part_000 lines
101-107): flat is pre-allocated with make to the length of dp (that many
zeros) and every value is then appended after them. -/
def flattenResponse (dp : List DataPoint) : List DDValue :=
  List.replicate dp.length (DDValue.num 0) ++ dp.map (fun p => p.val)

/-- Rendering of a float slice under the Go default format verb, as used for
the value string of the unnamed version. -/
def fmtList (l : List DDValue) : String :=
  "[" ++ String.intercalate " " (l.map fmtF) ++ "]"

/-- Embedding of Provider.processResponse of the unnamed source file (part_000
lines 109-122), which takes a single series: fewer than one point is
Inconclusive, at least one point flattens and evaluates (no NaN check in this
version); the default switch branch (Error) is dead code. -/
def processResponse (evalResult : List DDValue → AnalysisPhase) (response : Series) : String × AnalysisPhase × Option String :=
  let length := response.points.length
  if length < 1 then ("", AnalysisPhase.inconclusive, none)
  else
    let result := flattenResponse response.points
    (fmtList result, evalResult result, none)

/-- Embedding of Provider.Run of the unnamed source file (part_000 lines
38-73): on a non-empty response, process the first series and return a
measurement with FinishedAt set; on an empty response return Inconclusive with
FinishedAt set. -/
def Run (evalResult : List DDValue → AnalysisPhase) (now : Nat) (resolve : Except String String) (query : Except String (List Series)) : Measurement :=
  let newMeasurement : Measurement :=
    ⟨some now, none, none, AnalysisPhase.empty, "", ""⟩
  match resolve with
  | Except.error e => markMeasurementError now newMeasurement e
  | Except.ok _ =>
    match query with
    | Except.error e => markMeasurementError now newMeasurement e
    | Except.ok response =>
      match response with
      | series :: _ =>
        let (newValue, newStatus, perr) := processResponse evalResult series
        match perr with
        | some e => markMeasurementError now newMeasurement e
        | none =>
          { newMeasurement with
              value := newValue, phase := newStatus, finishedAt := some now }
      | [] =>
        { newMeasurement with
            value := "", phase := AnalysisPhase.inconclusive, finishedAt := some now }

/-- Embedding of Provider.Resume of the unnamed source file (part_000 lines
76-87), instrumented with the number of Run calls.  The loop runs for retries
from 0 while retries is below 3 and the phase is Inconclusive, but its body
ends in an unconditional return statement, so at most one iteration executes. -/
def Resume (evalResult : List DDValue → AnalysisPhase) (now : Nat) (resolve : Except String String) (query : Nat → Except String (List Series)) : Measurement × Nat :=
  let measurement := Run evalResult now resolve (query 0)
  if 0 < 3 ∧ measurement.phase = AnalysisPhase.inconclusive then
    (Run evalResult now resolve (query 1), 2)
  else (measurement, 1)

end DatadogV0

/-!
Helper lemmas shared by the claim theorems.
-/

/-- After selSet, the written key reads back the written value. -/
theorem selLookup_selSet : ∀ (sel : List (String × String)) (k v : String),
    selLookup (selSet sel k v) k = some v := by
  intro sel k v
  induction sel with
  | nil => simp [selSet, selLookup]
  | cons a t ih =>
    obtain ⟨k', v'⟩ := a
    by_cases hk : k' = k
    · simp [selSet, selLookup, hk]
    · simp [selSet, selLookup, hk, ih]

/-- After a successful switchServiceSelector call, the in-memory selector holds
the target value under the unique-hash key (both in the no-op branch, where it
already did, and in the patch branch, where it is updated). -/
theorem switchServiceSelector_selLookup (svc : Service) (v : String) :
    selLookup (((switchServiceSelector none svc v).service).selector.getD [])
      defaultRolloutUniqueLabelKey = some v := by
  by_cases hc : selLookup (svc.selector.getD []) defaultRolloutUniqueLabelKey = some v
  · simp [switchServiceSelector, hc]
  · simp [switchServiceSelector, hc, selLookup_selSet]

/-- abortFold leaves its accumulator unchanged when no revision exceeds the
running maximum. -/
theorem abortFold_no_greater : ∀ (l : List ReplicaSet) (h : String) (cur : Int),
    (∀ rs ∈ l, ¬ cur < rs.revision) → abortFold l h cur = h := by
  intro l
  induction l with
  | nil => intro h cur _; rfl
  | cons a t ih =>
    intro h cur hall
    have ha := hall a (List.mem_cons_self a t)
    simp only [abortFold, if_neg ha]
    exact ih h cur (fun rs hrs => hall rs (List.mem_cons_of_mem a hrs))

/-- abortFold returns the hash of the strictly greatest-revision element when
that element beats the starting maximum. -/
theorem abortFold_max : ∀ (l : List ReplicaSet) (h : String) (cur : Int) (rs : ReplicaSet),
    rs ∈ l → (∀ r ∈ l, r = rs ∨ r.revision < rs.revision) → cur < rs.revision →
    abortFold l h cur = rs.hash := by
  intro l
  induction l with
  | nil => intro h cur rs hmem; cases hmem
  | cons a t ih =>
    intro h cur rs hmem hmax hcur
    rcases hmax a (List.mem_cons_self a t) with ha | ha
    · subst ha
      simp only [abortFold, if_pos hcur]
      apply abortFold_no_greater
      intro r hr
      rcases hmax r (List.mem_cons_of_mem a hr) with h1 | h1
      · subst h1; omega
      · omega
    · have hmem' : rs ∈ t := by
        rcases List.mem_cons.mp hmem with h1 | h1
        · exfalso; rw [h1] at ha; omega
        · exact h1
      by_cases hc : cur < a.revision
      · simp only [abortFold, if_pos hc]
        exact ih a.hash a.revision rs hmem'
          (fun r hr => hmax r (List.mem_cons_of_mem a hr)) ha
      · simp only [abortFold, if_neg hc]
        exact ih h cur rs hmem'
          (fun r hr => hmax r (List.mem_cons_of_mem a hr)) hcur

/-!
Claim theorems.
-/

/-- C1, counterexample.  The claim states that in a pass where the new replica
set is not saturated no selector switch call occurs on either the preview or
the active service.  In this concrete pass the new RS is not saturated
(isSaturated = false) and every pause and promotion condition is met, yet the
preview service receives a switch patch: reconcilePreviewService is
unconditional, so the claim as stated is false. -/
theorem c1_counterexample :
    (reconcileBlueGreenPass
      (fun n =>
        if n = "preview-svc" then
          Except.ok ⟨"preview-svc", some [(defaultRolloutUniqueLabelKey, "hash-old")]⟩
        else if n = "active-svc" then
          Except.ok ⟨"active-svc", some [(defaultRolloutUniqueLabelKey, "hash-old")]⟩
        else Except.error (RErr.notFound n))
      "preview-svc" "active-svc"
      ⟨false, ⟨"rs-new", "hash-new", 2, 1⟩, [], true, false, true, true, true⟩
      none).patches = [("preview-svc", "hash-new")] := by rfl

/-- C1, amended.  When the new replica set is not ready for pause or not
saturated, reconcileActiveService issues no selector switch call on the active
service for that pass (it returns nil having touched nothing), even if every
pause, promotion and analysis condition is otherwise met; the preview service
is still switched unconditionally. -/
theorem c1_active_gated (inp : BGInput) (activeSvc : Service) (patchErr : Option String)
    (h : inp.readyForPause = false ∨ inp.isSaturated = false) :
    reconcileActiveService inp activeSvc patchErr = ⟨none, activeSvc, [], []⟩ := by
  rcases h with h | h <;> simp [reconcileActiveService, h]

/-- Witness for c1_active_gated at a concrete unsaturated input. -/
theorem c1_active_gated_witness :
    ((⟨false, ⟨"rs-new", "hash-new", 2, 1⟩, [], true, false, true, true, true⟩ : BGInput).readyForPause = false ∨
      (⟨false, ⟨"rs-new", "hash-new", 2, 1⟩, [], true, false, true, true, true⟩ : BGInput).isSaturated = false) ∧
    reconcileActiveService
      ⟨false, ⟨"rs-new", "hash-new", 2, 1⟩, [], true, false, true, true, true⟩
      ⟨"active-svc", some [(defaultRolloutUniqueLabelKey, "hash-old")]⟩ none =
      ⟨none, ⟨"active-svc", some [(defaultRolloutUniqueLabelKey, "hash-old")]⟩, [], []⟩ :=
  ⟨Or.inr rfl,
    c1_active_gated
      ⟨false, ⟨"rs-new", "hash-new", 2, 1⟩, [], true, false, true, true, true⟩
      ⟨"active-svc", some [(defaultRolloutUniqueLabelKey, "hash-old")]⟩ none (Or.inr rfl)⟩

/-- C2: code evaluation at the failing input.  For a provider whose query
always returns empty data, one Resume call performs exactly two query cycles in
both versions of the provider (the initial call plus a single re-attempt),
because the retry loop body ends in an unconditional return during its first
iteration, and hands back the measurement of the last attempt (Running in
datadog.go, Inconclusive in the unnamed earlier version).  The claim that the
loop does not special-case only its first iteration is therefore false of the
code, while the code comment announces up to three retries. -/
theorem c2_resume_two_calls :
    Datadog.Resume evalAllPositive 0 (Except.ok "q") (fun _ => Except.ok []) =
      some (⟨some 0, none, some 2, AnalysisPhase.running, "", ""⟩, 2) ∧
    DatadogV0.Resume evalAllPositive 0 (Except.ok "q") (fun _ => Except.ok []) =
      (⟨some 0, some 0, none, AnalysisPhase.inconclusive, "", ""⟩, 2) := ⟨rfl, rfl⟩

/-- C3: code evaluation at the failing input.  Run in datadog.go, given one
series with the single sample 5, produces a non-empty value string while the
evaluator verdict is Failed (the evaluator is handed the flattened slice, here
the single zero of the pre-allocation, and evalAllPositive rejects it), and
returns a Measurement with a set Value, the empty (unset) phase, and neither
FinishedAt nor ResumeAt populated: the classification chain only handles the
empty-value non-successful and non-empty-value successful combinations, so any
non-successful verdict with data falls through both branches, violating the
claimed invariant. -/
theorem c3_run_unset_phase :
    Datadog.Run evalAllPositive 0 (Except.ok "q")
      (Except.ok [⟨[⟨DDValue.num 0, DDValue.num 5⟩]⟩]) =
      some ⟨some 0, none, none, AnalysisPhase.empty, "5.00", ""⟩ := rfl

/-- C4.  For a rollout in aborted state whose active older replica sets include
revisions 1, 2 and 3, with 3 the unique maximum among them, and whose new RS
passes the saturation gate, the active-service target computed by
reconcileActiveService is the unique hash of the revision-3 replica set,
whatever the pause/promotion flags, the new RS and the current selector value
are; and after the reconcile the active service selector holds that hash. -/
theorem c4_abort_precedence (inp : BGInput) (activeSvc : Service)
    (rs1 rs2 rs3 : ReplicaSet)
    (hready : inp.readyForPause = true) (hsat : inp.isSaturated = true)
    (habort : inp.abort = true)
    (h1 : rs1 ∈ filterActiveReplicaSets inp.olderRSs) (h1r : rs1.revision = 1)
    (h2 : rs2 ∈ filterActiveReplicaSets inp.olderRSs) (h2r : rs2.revision = 2)
    (h3 : rs3 ∈ filterActiveReplicaSets inp.olderRSs) (h3r : rs3.revision = 3)
    (hmax : ∀ r ∈ filterActiveReplicaSets inp.olderRSs, r = rs3 ∨ r.revision < rs3.revision) :
    computeActiveTarget inp activeSvc = rs3.hash ∧
    selLookup (((reconcileActiveService inp activeSvc none).activeSvc).selector.getD [])
      defaultRolloutUniqueLabelKey = some rs3.hash := by
  have htarget : computeActiveTarget inp activeSvc = rs3.hash := by
    unfold computeActiveTarget
    rw [habort]
    simp only [if_true]
    exact abortFold_max _ _ 0 rs3 h3 hmax (by omega)
  refine ⟨htarget, ?_⟩
  unfold reconcileActiveService
  rw [hready, hsat]
  simp only [Bool.not_true, Bool.or_self, Bool.false_eq_true, if_false]
  rw [htarget]
  exact switchServiceSelector_selLookup activeSvc rs3.hash

/-- Witness for c4_abort_precedence: aborted rollout, older replica sets of
revisions 1, 3, 2 all active, saturated new RS of revision 4; the target and
the final selector are the revision-3 hash. -/
theorem c4_abort_precedence_witness :
    computeActiveTarget
      ⟨true, ⟨"rs-new", "hash-new", 4, 1⟩,
        [⟨"rs1", "hash1", 1, 1⟩, ⟨"rs3", "hash3", 3, 1⟩, ⟨"rs2", "hash2", 2, 1⟩],
        true, true, true, true, true⟩
      ⟨"active-svc", some [(defaultRolloutUniqueLabelKey, "hash-old")]⟩ = "hash3" ∧
    selLookup (((reconcileActiveService
      ⟨true, ⟨"rs-new", "hash-new", 4, 1⟩,
        [⟨"rs1", "hash1", 1, 1⟩, ⟨"rs3", "hash3", 3, 1⟩, ⟨"rs2", "hash2", 2, 1⟩],
        true, true, true, true, true⟩
      ⟨"active-svc", some [(defaultRolloutUniqueLabelKey, "hash-old")]⟩ none).activeSvc).selector.getD [])
      defaultRolloutUniqueLabelKey = some "hash3" :=
  c4_abort_precedence
    ⟨true, ⟨"rs-new", "hash-new", 4, 1⟩,
      [⟨"rs1", "hash1", 1, 1⟩, ⟨"rs3", "hash3", 3, 1⟩, ⟨"rs2", "hash2", 2, 1⟩],
      true, true, true, true, true⟩
    ⟨"active-svc", some [(defaultRolloutUniqueLabelKey, "hash-old")]⟩
    ⟨"rs1", "hash1", 1, 1⟩ ⟨"rs2", "hash2", 2, 1⟩ ⟨"rs3", "hash3", 3, 1⟩
    rfl rfl rfl (by decide) rfl (by decide) rfl (by decide) rfl (by decide)

/-- C5, counterexample.  The claim states that for every service and target,
calling the selector-switch operation twice with the same target produces
exactly one patch call, the first call issuing the patch.  For a service whose
selector already holds the target value, both calls are no-ops: zero patch
calls are issued in total, so the universally quantified claim is false. -/
theorem c5_counterexample :
    (switchServiceSelector none ⟨"svc", some [(defaultRolloutUniqueLabelKey, "abc")]⟩ "abc").patches ++
    (switchServiceSelector none
      (switchServiceSelector none ⟨"svc", some [(defaultRolloutUniqueLabelKey, "abc")]⟩ "abc").service
      "abc").patches = [] := rfl

/-- C5, amended.  For every service whose current unique-hash selector value
differs from the target (or lacks the key), calling switchServiceSelector twice
with the same target produces exactly one patch call: the first successful call
issues the patch and updates the in-memory selector to the target, and the
second call returns nil with no patch and leaves the service unchanged; when
the selector already equals the target, neither call patches. -/
theorem c5_idempotent_switch (svc : Service) (v : String)
    (h : selLookup (svc.selector.getD []) defaultRolloutUniqueLabelKey ≠ some v) :
    (switchServiceSelector none svc v).err = none ∧
    (switchServiceSelector none svc v).patches = [(svc.name, v)] ∧
    selLookup (((switchServiceSelector none svc v).service).selector.getD [])
      defaultRolloutUniqueLabelKey = some v ∧
    (switchServiceSelector none (switchServiceSelector none svc v).service v).err = none ∧
    (switchServiceSelector none (switchServiceSelector none svc v).service v).patches = [] ∧
    (switchServiceSelector none (switchServiceSelector none svc v).service v).service =
      (switchServiceSelector none svc v).service := by
  have hfirst : switchServiceSelector none svc v =
      ⟨none, ⟨svc.name, some (selSet (svc.selector.getD []) defaultRolloutUniqueLabelKey v)⟩,
        [(svc.name, v)],
        [⟨EventType.normal, "SwitchService",
          "Switched selector for service " ++ svc.name ++ " to value " ++ v⟩]⟩ := by
    simp [switchServiceSelector, h]
  have hsecond : switchServiceSelector none (switchServiceSelector none svc v).service v =
      ⟨none, (switchServiceSelector none svc v).service, [], []⟩ := by
    rw [hfirst]
    simp [switchServiceSelector, selLookup_selSet]
  refine ⟨?_, ?_, ?_, ?_, ?_, ?_⟩
  · rw [hfirst]
  · rw [hfirst]
  · exact switchServiceSelector_selLookup svc v
  · rw [hsecond]
  · rw [hsecond]
  · rw [hsecond]

/-- Witness for c5_idempotent_switch: a service with a nil selector map and
target abc. -/
theorem c5_idempotent_switch_witness :
    selLookup ((Service.mk "svc" none).selector.getD []) defaultRolloutUniqueLabelKey ≠ some "abc" ∧
    ((switchServiceSelector none ⟨"svc", none⟩ "abc").err = none ∧
     (switchServiceSelector none ⟨"svc", none⟩ "abc").patches = [("svc", "abc")] ∧
     selLookup (((switchServiceSelector none ⟨"svc", none⟩ "abc").service).selector.getD [])
       defaultRolloutUniqueLabelKey = some "abc" ∧
     (switchServiceSelector none (switchServiceSelector none ⟨"svc", none⟩ "abc").service "abc").err = none ∧
     (switchServiceSelector none (switchServiceSelector none ⟨"svc", none⟩ "abc").service "abc").patches = [] ∧
     (switchServiceSelector none (switchServiceSelector none ⟨"svc", none⟩ "abc").service "abc").service =
       (switchServiceSelector none ⟨"svc", none⟩ "abc").service) :=
  ⟨by decide, c5_idempotent_switch ⟨"svc", none⟩ "abc" (by decide)⟩

/-- C6: code evaluation at the failing inputs.  The claimed classification
table fails on datadog.go.  First conjunct: a series whose single sample is NaN
classifies as Failed, not Inconclusive, because flattenResponse hands the NaN
check and the evaluator the pre-allocated zero slice instead of the samples.
Second and third conjuncts: a fully numeric series with the single sample 5
classifies as Failed under the all-samples-positive evaluator although that
evaluator maps the actual sample set to Successful, again because the evaluator
receives the zero slice rather than S. -/
theorem c6_classification_eval :
    Datadog.processResponse evalAllPositive [⟨[⟨DDValue.num 0, DDValue.nan⟩]⟩] =
      some ("NaN", AnalysisPhase.failed, none) ∧
    Datadog.processResponse evalAllPositive [⟨[⟨DDValue.num 0, DDValue.num 5⟩]⟩] =
      some ("5.00", AnalysisPhase.failed, none) ∧
    evalAllPositive [DDValue.num 5] = AnalysisPhase.successful := ⟨rfl, rfl, rfl⟩

/-- C7.  For every non-empty service name whose lookup fails with not-found,
getReferencedService records exactly one warning event and one
Progressing=False condition with the ServiceNotFound reason, both naming the
missing service, and returns a nil service together with the not-found error
(unswallowed); and a blue-green pass resolving that name as its active service
aborts with that error having issued no selector patch. -/
theorem c7_not_found_propagation (lookup : String → Except RErr Service) (name m : String)
    (inp : BGInput) (patchErr : Option String)
    (hname : name ≠ "") (hlk : lookup name = Except.error (RErr.notFound m)) :
    (getReferencedService lookup name).svc = none ∧
    (getReferencedService lookup name).err = some (RErr.notFound m) ∧
    (getReferencedService lookup name).events =
      [⟨EventType.warning, serviceNotFoundReason, serviceNotFoundMessage name⟩] ∧
    (getReferencedService lookup name).conditions =
      [⟨"Progressing", false, serviceNotFoundReason, serviceNotFoundMessage name⟩] ∧
    (reconcileBlueGreenPass lookup "" name inp patchErr).patches = [] ∧
    (reconcileBlueGreenPass lookup "" name inp patchErr).err = some (RErr.notFound m) := by
  have hres : getReferencedService lookup name =
      ⟨none, some (RErr.notFound m),
        [⟨EventType.warning, serviceNotFoundReason, serviceNotFoundMessage name⟩],
        [⟨"Progressing", false, serviceNotFoundReason, serviceNotFoundMessage name⟩]⟩ := by
    simp [getReferencedService, hlk]
  have hsvcs : getPreviewAndActiveServices lookup "" name =
      ⟨none, none, some (RErr.notFound m),
        [⟨EventType.warning, serviceNotFoundReason, serviceNotFoundMessage name⟩],
        [⟨"Progressing", false, serviceNotFoundReason, serviceNotFoundMessage name⟩]⟩ := by
    simp [getPreviewAndActiveServices, hname, hres]
  refine ⟨?_, ?_, ?_, ?_, ?_, ?_⟩
  · rw [hres]
  · rw [hres]
  · rw [hres]
  · rw [hres]
  · simp [reconcileBlueGreenPass, hsvcs]
  · simp [reconcileBlueGreenPass, hsvcs]

/-- Witness for c7_not_found_propagation: a lister that finds nothing and the
active service name active-svc. -/
theorem c7_not_found_propagation_witness :
    ("active-svc" : String) ≠ "" ∧
    ((getReferencedService (fun n => Except.error (RErr.notFound n)) "active-svc").svc = none ∧
     (getReferencedService (fun n => Except.error (RErr.notFound n)) "active-svc").err =
       some (RErr.notFound "active-svc") ∧
     (getReferencedService (fun n => Except.error (RErr.notFound n)) "active-svc").events =
       [⟨EventType.warning, serviceNotFoundReason, serviceNotFoundMessage "active-svc"⟩] ∧
     (getReferencedService (fun n => Except.error (RErr.notFound n)) "active-svc").conditions =
       [⟨"Progressing", false, serviceNotFoundReason, serviceNotFoundMessage "active-svc"⟩] ∧
     (reconcileBlueGreenPass (fun n => Except.error (RErr.notFound n)) "" "active-svc"
       ⟨false, ⟨"rs-new", "hash-new", 2, 1⟩, [], true, true, false, false, false⟩ none).patches = [] ∧
     (reconcileBlueGreenPass (fun n => Except.error (RErr.notFound n)) "" "active-svc"
       ⟨false, ⟨"rs-new", "hash-new", 2, 1⟩, [], true, true, false, false, false⟩ none).err =
       some (RErr.notFound "active-svc")) :=
  ⟨by decide,
    c7_not_found_propagation (fun n => Except.error (RErr.notFound n)) "active-svc" "active-svc"
      ⟨false, ⟨"rs-new", "hash-new", 2, 1⟩, [], true, true, false, false, false⟩ none
      (by decide) rfl⟩

/-- C8, counterexample.  The claim states that a rollout whose blue-green
strategy has an empty active-service name gets an immediate hard error with no
partial side effects.  With an empty active-service name but a configured
preview service whose lookup fails not-found, getPreviewAndActiveServices
emits a warning event (and a condition) and returns the preview lookup error
rather than the Invalid Spec error, so the claim as stated is false. -/
theorem c8_counterexample :
    (getPreviewAndActiveServices (fun n => Except.error (RErr.notFound n)) "prev" "").events =
      [⟨EventType.warning, serviceNotFoundReason, serviceNotFoundMessage "prev"⟩] ∧
    (getPreviewAndActiveServices (fun n => Except.error (RErr.notFound n)) "prev" "").err =
      some (RErr.notFound "prev") := ⟨rfl, rfl⟩

/-- C8, amended.  For every rollout whose blue-green strategy has an empty
active-service name, provided the preview-service name is empty or its lookup
succeeds, resolving the services returns the Invalid Spec hard error with no
events, no conditions and no resolved services, and a pass on that rollout
issues no selector patch; when the preview lookup fails instead, its own error
is returned first together with its own event and condition. -/
theorem c8_misconfig_no_side_effects (lookup : String → Except RErr Service) (previewName : String)
    (h : previewName = "" ∨ ∃ s, lookup previewName = Except.ok s) :
    (getPreviewAndActiveServices lookup previewName "").err =
      some (RErr.invalidSpec invalidSpecMessage) ∧
    (getPreviewAndActiveServices lookup previewName "").events = [] ∧
    (getPreviewAndActiveServices lookup previewName "").conditions = [] ∧
    (getPreviewAndActiveServices lookup previewName "").previewSvc = none ∧
    (getPreviewAndActiveServices lookup previewName "").activeSvc = none ∧
    ∀ (inp : BGInput) (patchErr : Option String),
      (reconcileBlueGreenPass lookup previewName "" inp patchErr).patches = [] := by
  have hsvcs : getPreviewAndActiveServices lookup previewName "" =
      ⟨none, none, some (RErr.invalidSpec invalidSpecMessage), [], []⟩ := by
    rcases h with h | ⟨s, hs⟩
    · simp [getPreviewAndActiveServices, h]
    · by_cases hp : previewName = ""
      · simp [getPreviewAndActiveServices, hp]
      · simp [getPreviewAndActiveServices, hp, getReferencedService, hs]
  refine ⟨?_, ?_, ?_, ?_, ?_, ?_⟩
  · rw [hsvcs]
  · rw [hsvcs]
  · rw [hsvcs]
  · rw [hsvcs]
  · rw [hsvcs]
  · intro inp patchErr
    simp [reconcileBlueGreenPass, hsvcs]

/-- Witness for c8_misconfig_no_side_effects: preview name prev resolved by a
lister that finds every name, active name empty. -/
theorem c8_misconfig_no_side_effects_witness :
    (("prev" : String) = "" ∨ ∃ s, (fun n => Except.ok (Service.mk n none) : String → Except RErr Service) "prev" = Except.ok s) ∧
    ((getPreviewAndActiveServices (fun n => Except.ok (Service.mk n none)) "prev" "").err =
       some (RErr.invalidSpec invalidSpecMessage) ∧
     (getPreviewAndActiveServices (fun n => Except.ok (Service.mk n none)) "prev" "").events = [] ∧
     (getPreviewAndActiveServices (fun n => Except.ok (Service.mk n none)) "prev" "").conditions = [] ∧
     (getPreviewAndActiveServices (fun n => Except.ok (Service.mk n none)) "prev" "").previewSvc = none ∧
     (getPreviewAndActiveServices (fun n => Except.ok (Service.mk n none)) "prev" "").activeSvc = none ∧
     ∀ (inp : BGInput) (patchErr : Option String),
       (reconcileBlueGreenPass (fun n => Except.ok (Service.mk n none)) "prev" "" inp patchErr).patches = []) :=
  ⟨Or.inr ⟨Service.mk "prev" none, rfl⟩,
    c8_misconfig_no_side_effects (fun n => Except.ok (Service.mk n none)) "prev"
      (Or.inr ⟨Service.mk "prev" none, rfl⟩)⟩

/-- C9: code evaluation at the failing input.  A response whose first series
has an empty Points list drives flattenResponse into the branch that reads
dp[0] with len(dp) = 0: an out-of-bounds slice index (a Go runtime panic,
embedded as the none result), not a classification result, so the implicit
in-bounds claim is false of datadog.go. -/
theorem c9_out_of_bounds_eval :
    Datadog.flattenResponse [] = none ∧
    Datadog.processResponse evalAllPositive [⟨[]⟩] = none := ⟨rfl, rfl⟩

/-- C10: code evaluation at the failing input.  For the single sample 5 the
flattened slice handed to the evaluator is the pre-allocated zero slice with
the sample dropped (datadog.go, at most two points), or the zero slice with the
samples appended after it (the unnamed earlier version); for three samples
datadog.go prepends three zeros.  In no case does the slice equal exactly the
list of sample values, so the claim is false of the code. -/
theorem c10_flatten_eval :
    Datadog.flattenResponse [⟨DDValue.num 0, DDValue.num 5⟩] =
      some ([DDValue.num 0], "5.00") ∧
    DatadogV0.flattenResponse [⟨DDValue.num 0, DDValue.num 5⟩] =
      [DDValue.num 0, DDValue.num 5] ∧
    Datadog.flattenResponse
      [⟨DDValue.num 0, DDValue.num 1⟩, ⟨DDValue.num 0, DDValue.num 2⟩, ⟨DDValue.num 0, DDValue.num 3⟩] =
      some ([DDValue.num 0, DDValue.num 0, DDValue.num 0,
             DDValue.num 1, DDValue.num 2, DDValue.num 3], "[1.00,2.00,3.00]") := ⟨rfl, rfl, rfl⟩
